import Mathlib

/-!
Verification development for the `generate-ev` lambda: a shallow embedding of
the Python sources (`ev_calculator.py`, `flag_llm.py`, `db.py`, `utils.py`,
`lambda_function.py`) together with theorems settling the specification
claims.  Machine integers are modelled as `Nat`/`Int`; Python exceptions are
modelled as explicit error outcomes; external collaborators (the LLM provider,
the storage service, the delegated rate-limit lambda) are modelled as oracle
inputs describing what they return.
-/

namespace GenerateEv

/-- Token-usage pair as built by both LLM clients from the provider response
(`input_tokens` / `output_tokens`). -/
structure TokenUsage where
  input_tokens : Nat
  output_tokens : Nat
  deriving DecidableEq, Repr

/-- The all-zero usage pair returned on every failure path. -/
def zeroUsage : TokenUsage := ⟨0, 0⟩

/-- What becomes of one provider HTTP response body, as seen by `calc_ev`
(ev_calculator.py lines 110-126) and `invoke_flag_llm` (flag_llm.py lines
111-127):

* `malformed`   - `json.loads` raises (malformed JSON);
* `noChoices`   - parsed JSON without a `choices` key;
* `badChoices`  - `choices` present but accessing
  `choices[0].message.content` raises;
* `ok content p c` - a completion string `content`, with reported usage
  `prompt_tokens = p` and `completion_tokens = c` (defaulted to 0 by the
  source when absent, so plain `Nat` fields are faithful). -/
inductive ApiBody where
  | malformed
  | noChoices
  | badChoices
  | ok (content : String) (promptTokens completionTokens : Nat)
  deriving DecidableEq, Repr

/-- One provider HTTP response: status code plus body. -/
structure ApiResponse where
  status : Nat
  body : ApiBody
  deriving DecidableEq, Repr

/-- Whitespace as stripped by Python `str.strip()` (restricted to the ASCII
whitespace characters, which are the only ones these claims exercise). -/
def pyIsSpace (c : Char) : Bool :=
  c = ' ' || c = '\t' || c = '\n' || c = '\x0d' || c = '\x0b' || c = '\x0c'

/-- Python `str.strip()` on the completion: drop leading and trailing
whitespace.  Defined over the underlying character list so that it reduces
by computation. -/
def pyStrip (s : String) : String :=
  ⟨((s.data.dropWhile pyIsSpace).reverse.dropWhile pyIsSpace).reverse⟩

/-- Python `str.lower()` on the completion (ASCII case fold). -/
def pyLower (s : String) : String :=
  ⟨s.data.map fun c => if c.toNat ≥ 65 && c.toNat ≤ 90 then Char.ofNat (c.toNat + 32) else c⟩

/-- The digit test of ev_calculator.py line 129: the full string is a run of
one to three digits. -/
def isDigitRun13 (s : String) : Bool :=
  decide (1 ≤ s.data.length) && decide (s.data.length ≤ 3) && s.data.all Char.isDigit

/-- Python `int()` on a digit run. -/
def parseDigits (s : String) : Nat :=
  s.data.foldl (fun n c => 10 * n + (c.toNat - 48)) 0

/-- Python keyword-argument binding for a function whose parameters all lack
defaults: the call binds (and the body runs) iff the supplied keyword names
are exactly the parameter names; otherwise the call raises `TypeError`. -/
def kwargsBindOk (params kwargs : List String) : Bool :=
  params.all (fun p => kwargs.contains p) && kwargs.all (fun k => params.contains k)

/-- Parameter names of `db.store_ai_invocation` (db.py lines 176-184).  All
seven are required: none has a default. -/
def store_ai_invocation_params : List String :=
  ["associated_account", "input_tokens", "output_tokens",
   "llm_email_type", "model_name", "conversation_id", "session_id"]

/-- Keyword arguments passed to `store_ai_invocation` at the call inside
`calc_ev` (ev_calculator.py lines 134-141).  `session_id` is absent, so in
Python the call raises `TypeError` before the callee body runs. -/
def calc_ev_store_call_kwargs : List String :=
  ["associated_account", "input_tokens", "output_tokens",
   "llm_email_type", "model_name", "conversation_id"]

/-- Keyword arguments passed to `store_ai_invocation` at the call inside
`invoke_flag_llm` (flag_llm.py lines 131-138); the same six names,
`session_id` again absent. -/
def flag_store_call_kwargs : List String :=
  ["associated_account", "input_tokens", "output_tokens",
   "llm_email_type", "model_name", "conversation_id"]

/-- One iteration of the two-attempt loop in `calc_ev` (ev_calculator.py
lines 100-145), given that attempt's provider response.  `some result` means
the attempt returns from `calc_ev` with `result` (a normal `return` or an
exception propagating to the enclosing `except`, which returns
`(-3, zero)`); `none` means the attempt falls through to a retry
(non-digit completion, line 145).

The valid-digit branch (lines 129-143) parses and clamps the score and then
calls `store_ai_invocation`; because that call omits the required
`session_id` keyword (`kwargsBindOk ... = false`) it raises `TypeError`,
which the `except` at line 151 converts to `(-3, zero)`. -/
def calc_ev_attempt (r : ApiResponse) : Option (Int × TokenUsage) :=
  if r.status ≠ 200 then some (-3, zeroUsage)
  else
    match r.body with
    | ApiBody.malformed => some (-3, zeroUsage)
    | ApiBody.noChoices => some (-3, zeroUsage)
    | ApiBody.badChoices => some (-3, zeroUsage)
    | ApiBody.ok content p c =>
      let raw := pyStrip content
      if isDigitRun13 raw then
        if kwargsBindOk store_ai_invocation_params calc_ev_store_call_kwargs then
          some (max 0 (min 100 (parseDigits raw : Int)), ⟨p, c⟩)
        else some (-3, zeroUsage)
      else none

/-- `ev_calculator.calc_ev` (lines 98-153), as a function of the provider
responses the two attempts would receive.  The request payload is built once
before the loop (lines 86-96) and never mutated, so both attempts send the
identical request; the two oracle responses `r1`, `r2` are the only inputs
the control flow depends on.  If both attempts fall through, line 149
returns `(-2, zero)`. -/
def calc_ev (r1 r2 : ApiResponse) : Int × TokenUsage :=
  match calc_ev_attempt r1 with
  | some res => res
  | none =>
    match calc_ev_attempt r2 with
    | some res => res
    | none => (-2, zeroUsage)

/-- The kwargs at the `calc_ev` store call do not bind against
`db.store_ai_invocation`: `session_id` is missing. -/
theorem calc_ev_store_call_raises :
    kwargsBindOk store_ai_invocation_params calc_ev_store_call_kwargs = false := by
  decide

/-- Every attempt either returns `(-3, zero)`, falls through to a retry, or
ends the whole call; the nominal success value is unreachable because the
store call raises. -/
theorem calc_ev_attempt_cases (r : ApiResponse) :
    calc_ev_attempt r = some (-3, zeroUsage) ∨ calc_ev_attempt r = none := by
  obtain ⟨st, b⟩ := r
  unfold calc_ev_attempt
  by_cases h : st = 200
  · subst h
    cases b <;> simp [calc_ev_store_call_raises]
  · simp [h]

/-- The whole call always yields `(-3, zero)` or `(-2, zero)`. -/
theorem calc_ev_result_cases (r1 r2 : ApiResponse) :
    calc_ev r1 r2 = (-3, zeroUsage) ∨ calc_ev r1 r2 = (-2, zeroUsage) := by
  unfold calc_ev
  rcases calc_ev_attempt_cases r1 with h1 | h1 <;> rw [h1]
  · left; rfl
  · rcases calc_ev_attempt_cases r2 with h2 | h2 <;> rw [h2]
    · left; rfl
    · right; rfl

/-- An attempt falls through to a retry exactly when the provider answered
200 with a well-formed body whose stripped completion is not a run of one to
three digits. -/
theorem calc_ev_attempt_eq_none_iff (r : ApiResponse) :
    calc_ev_attempt r = none ↔
      r.status = 200 ∧ ∃ s p c, r.body = ApiBody.ok s p c ∧
        isDigitRun13 (pyStrip s) = false := by
  obtain ⟨st, b⟩ := r
  unfold calc_ev_attempt
  by_cases h : st = 200
  · subst h
    cases b <;> simp [calc_ev_store_call_raises]
  · simp [h]

/-- Claim C1 (code_bug evidence): for the completions `"0"`, `"100"` and
`"150"` - well-formed 200 responses whose stripped text is a run of one to
three digits - the claim demands the clamped scores `0`, `100`, `100`, but
`calc_ev` returns `(-3, zero)` on each: the valid-digit branch calls
`store_ai_invocation` without the required `session_id` keyword, the call
raises `TypeError`, and the enclosing `except` returns the `-3` sentinel. -/
theorem calc_ev_valid_digits_yield_minus_three :
    calc_ev ⟨200, ApiBody.ok "0" 5 1⟩ ⟨200, ApiBody.ok "0" 5 1⟩ = (-3, zeroUsage)
    ∧ calc_ev ⟨200, ApiBody.ok "100" 5 1⟩ ⟨200, ApiBody.ok "100" 5 1⟩ = (-3, zeroUsage)
    ∧ calc_ev ⟨200, ApiBody.ok "150" 5 1⟩ ⟨200, ApiBody.ok "150" 5 1⟩ = (-3, zeroUsage)
    ∧ kwargsBindOk store_ai_invocation_params calc_ev_store_call_kwargs = false := by
  refine ⟨?_, ?_, ?_, calc_ev_store_call_raises⟩ <;> decide

/-- Claim C2: `calc_ev` fails only with the sentinels `-2` and `-3`;
the result is `-2` exactly when both attempts fell through, which happens
exactly on a 200 response whose completion is not a 1-3 digit run; a
non-200 first response yields exactly `(-3, zero)` and the result does not
depend on the second response (no second attempt is made); a malformed
body, a missing `choices` field, or a failing content access on the first
attempt likewise yields exactly `(-3, zero)`. -/
theorem calc_ev_failure_codes :
    (∀ r1 r2 : ApiResponse, (calc_ev r1 r2).1 < 0 →
        (calc_ev r1 r2).1 = -2 ∨ (calc_ev r1 r2).1 = -3)
    ∧ (∀ r1 r2 : ApiResponse,
        ((calc_ev r1 r2).1 = -2 ↔ calc_ev_attempt r1 = none ∧ calc_ev_attempt r2 = none))
    ∧ (∀ r : ApiResponse,
        (calc_ev_attempt r = none ↔
          r.status = 200 ∧ ∃ s p c, r.body = ApiBody.ok s p c ∧
            isDigitRun13 (pyStrip s) = false))
    ∧ (∀ r1 r2 r2' : ApiResponse, r1.status ≠ 200 →
        calc_ev r1 r2 = (-3, zeroUsage) ∧ calc_ev r1 r2 = calc_ev r1 r2')
    ∧ (∀ r1 r2 : ApiResponse,
        (r1.body = ApiBody.malformed ∨ r1.body = ApiBody.noChoices ∨
          r1.body = ApiBody.badChoices) →
        calc_ev r1 r2 = (-3, zeroUsage)) := by
  refine ⟨?_, ?_, calc_ev_attempt_eq_none_iff, ?_, ?_⟩
  · intro r1 r2 _
    rcases calc_ev_result_cases r1 r2 with h | h <;> rw [h] <;> simp
  · intro r1 r2
    unfold calc_ev
    rcases calc_ev_attempt_cases r1 with h1 | h1 <;> rw [h1]
    · simp [h1]
    · rcases calc_ev_attempt_cases r2 with h2 | h2 <;> rw [h2] <;> simp [h1, h2]
  · intro r1 r2 r2' h
    have h1 : calc_ev_attempt r1 = some (-3, zeroUsage) := by
      unfold calc_ev_attempt
      simp [h]
    constructor <;> unfold calc_ev <;> rw [h1]
  · intro r1 r2 h
    have h1 : calc_ev_attempt r1 = some (-3, zeroUsage) := by
      obtain ⟨st, b⟩ := r1
      unfold calc_ev_attempt
      rcases h with h | h | h <;> simp only at h <;> subst h <;>
        by_cases hs : st = 200 <;> simp [hs]
    unfold calc_ev
    rw [h1]

/-- Witness for `calc_ev_failure_codes`: a 500 status on the first attempt
gives exactly `(-3, zero)`. -/
theorem calc_ev_failure_codes_witness :
    calc_ev ⟨500, ApiBody.malformed⟩ ⟨200, ApiBody.ok "7" 1 1⟩ = (-3, zeroUsage) :=
  (calc_ev_failure_codes.2.2.2.1 ⟨500, ApiBody.malformed⟩ ⟨200, ApiBody.ok "7" 1 1⟩
    ⟨200, ApiBody.ok "7" 1 1⟩ (by decide)).1

/-- Claim C10: whenever `calc_ev` returns a negative sentinel, the
token-usage pair returned alongside is exactly `(0, 0)` - even though the
oracle responses may report non-zero token counts. -/
theorem calc_ev_failure_usage_zero :
    ∀ r1 r2 : ApiResponse, (calc_ev r1 r2).1 < 0 → (calc_ev r1 r2).2 = zeroUsage := by
  intro r1 r2 _
  rcases calc_ev_result_cases r1 r2 with h | h <;> rw [h]

/-- Witness for `calc_ev_failure_usage_zero`: a non-digit completion on both
attempts (reported usage 7 and 3 tokens) returns the zero usage pair. -/
theorem calc_ev_failure_usage_zero_witness :
    (calc_ev ⟨200, ApiBody.ok "N/A" 7 3⟩ ⟨200, ApiBody.ok "N/A" 7 3⟩).2 = zeroUsage :=
  calc_ev_failure_usage_zero ⟨200, ApiBody.ok "N/A" 7 3⟩ ⟨200, ApiBody.ok "N/A" 7 3⟩
    (by decide)

/-- One email as formatted by `db.get_email_chain` (db.py lines 72-78):
every record carries these five fields (each defaulted to the empty string
when absent, so the resulting Python dict is never empty). -/
structure Email where
  sender : String
  subject : String
  body : String
  timestamp : String
  type : String
  deriving DecidableEq, Repr

/-- One chat turn as produced by `ev_calculator.parse_messages`. -/
structure ChatMessage where
  role : String
  content : String
  deriving DecidableEq, Repr

/-- `ev_calculator.parse_messages` (lines 156-172): tag each email body
with the realtor or buyer marker by an exact, case-sensitive comparison of
the sender against the realtor email, and wrap it as a user turn. -/
def parse_messages (realtor_email : String) (emails : List Email) : List ChatMessage :=
  emails.map fun e =>
    ⟨"user", (if e.sender = realtor_email then "REALTOR: " else "BUYER: ") ++ e.body⟩

/-- Claim C9: the normalizer preserves length and order, and each output
element is a user turn whose content is the sender-dependent marker followed
by the message body; no message is filtered or truncated. -/
theorem parse_messages_spec :
    ∀ (a : String) (emails : List Email),
      (parse_messages a emails).length = emails.length
      ∧ ∀ (i : Nat) (e : Email), emails[i]? = some e →
          (parse_messages a emails)[i]? =
            some ⟨"user", (if e.sender = a then "REALTOR: " else "BUYER: ") ++ e.body⟩ := by
  intro a emails
  constructor
  · simp [parse_messages]
  · intro i e he
    simp [parse_messages, he]

/-- Witness for `parse_messages_spec`: a two-message chain with one
realtor message and one buyer message. -/
theorem parse_messages_spec_witness :
    (parse_messages "a@x.com" [⟨"a@x.com", "s", "hi", "1", "email"⟩,
        ⟨"b@y.com", "s", "yo", "2", "email"⟩]).length = 2
    ∧ (parse_messages "a@x.com" [⟨"a@x.com", "s", "hi", "1", "email"⟩,
        ⟨"b@y.com", "s", "yo", "2", "email"⟩])[1]? =
      some ⟨"user", "BUYER: " ++ "yo"⟩ := by
  have h := parse_messages_spec "a@x.com"
    [⟨"a@x.com", "s", "hi", "1", "email"⟩, ⟨"b@y.com", "s", "yo", "2", "email"⟩]
  refine ⟨h.1, ?_⟩
  have h2 := h.2 1 ⟨"b@y.com", "s", "yo", "2", "email"⟩ (by decide)
  rw [h2]
  decide

/-- A row of the `RL_AWS` / `RL_AI` DynamoDB tables: the per-account
invocation counter with its time-to-live attribute (seconds). -/
structure RLRow where
  invocations : Nat
  ttl : Nat
  deriving DecidableEq, Repr

/-- Outcome of one admission check: the returned `(is_allowed, message)`
pair together with the table row after the call. -/
structure RLOutcome where
  allowed : Bool
  msg : String
  state : Option RLRow
  deriving DecidableEq, Repr

/-- A `get_item` on a TTL-enabled DynamoDB table: rows whose `ttl` has
passed are treated as deleted (DynamoDB TTL removal, modelled as taking
effect at expiry).  The code itself never inspects `ttl` on read. -/
def getItemTTL (now : Nat) (table : Option RLRow) : Option RLRow :=
  match table with
  | none => none
  | some r => if r.ttl ≤ now then none else some r

/-- `db.check_and_update_aws_rate_limit` (db.py lines 259-314), with the
account's configured limit, the current time and the `RL_AWS` row as
inputs.  No row: create `(1, now+60)` and admit.  Row present: deny when
`invocations ≥ limit`, otherwise admit, increment and refresh the TTL to
`now+60` (lines 298-308 set both `invocations` and `ttl`). -/
def check_and_update_aws_rate_limit (limit now : Nat) (table : Option RLRow) : RLOutcome :=
  match getItemTTL now table with
  | none => ⟨true, "", some ⟨1, now + 60⟩⟩
  | some r =>
    if r.invocations ≥ limit then ⟨false, "AWS rate limit exceeded", some r⟩
    else ⟨true, "", some ⟨r.invocations + 1, now + 60⟩⟩

/-- `db.check_and_update_ai_rate_limit` (db.py lines 316-364).  Identical
shape, except that the admission update (lines 354-358) sets only
`invocations`: the stored `ttl` is left unchanged. -/
def check_and_update_ai_rate_limit (limit now : Nat) (table : Option RLRow) : RLOutcome :=
  match getItemTTL now table with
  | none => ⟨true, "", some ⟨1, now + 60⟩⟩
  | some r =>
    if r.invocations ≥ limit then ⟨false, "AI rate limit exceeded", some r⟩
    else ⟨true, "", some ⟨r.invocations + 1, r.ttl⟩⟩

/-- The table state after `k` successive AI-limiter admission checks, all
issued at time `now`, starting from no row. -/
def iterAI (limit now : Nat) : Nat → Option RLRow
  | 0 => none
  | k + 1 => (check_and_update_ai_rate_limit limit now (iterAI limit now k)).state

/-- The table state after `k` successive AWS-limiter admission checks, all
issued at time `now`, starting from no row. -/
def iterAWS (limit now : Nat) : Nat → Option RLRow
  | 0 => none
  | k + 1 => (check_and_update_aws_rate_limit limit now (iterAWS limit now k)).state

theorem iterAI_state (limit now : Nat) :
    ∀ k, k ≤ limit → iterAI limit now k = if k = 0 then none else some ⟨k, now + 60⟩ := by
  intro k
  induction k with
  | zero => intro _; rfl
  | succ n ih =>
    intro hle
    have hn : n ≤ limit := Nat.le_of_succ_le hle
    have hlt : n < limit := hle
    unfold iterAI
    rw [ih hn]
    cases n with
    | zero =>
      simp [check_and_update_ai_rate_limit, getItemTTL]
    | succ m =>
      simp only [if_neg (Nat.succ_ne_zero m)]
      simp [check_and_update_ai_rate_limit, getItemTTL, Nat.not_le.mpr (Nat.lt_succ_of_le (Nat.le_add_right now 60)),
        Nat.not_le.mpr hlt]

theorem iterAWS_state (limit now : Nat) :
    ∀ k, k ≤ limit → iterAWS limit now k = if k = 0 then none else some ⟨k, now + 60⟩ := by
  intro k
  induction k with
  | zero => intro _; rfl
  | succ n ih =>
    intro hle
    have hn : n ≤ limit := Nat.le_of_succ_le hle
    have hlt : n < limit := hle
    unfold iterAWS
    rw [ih hn]
    cases n with
    | zero =>
      simp [check_and_update_aws_rate_limit, getItemTTL]
    | succ m =>
      simp only [if_neg (Nat.succ_ne_zero m)]
      simp [check_and_update_aws_rate_limit, getItemTTL, Nat.not_le.mpr (Nat.lt_succ_of_le (Nat.le_add_right now 60)),
        Nat.not_le.mpr hlt]

/-- Claim C3 (counterexample): the AI-quota limiter admits from an
unexpired row (limit 5, count 1, expiry 1030, now 1000) and increments the
count, but leaves the expiry at 1030 instead of refreshing it to
`now + 60 = 1060` as the claim states for every quota kind. -/
theorem ai_rate_limit_admission_keeps_expiry :
    (check_and_update_ai_rate_limit 5 1000 (some ⟨1, 1030⟩)).allowed = true
    ∧ (check_and_update_ai_rate_limit 5 1000 (some ⟨1, 1030⟩)).state = some ⟨2, 1030⟩
    ∧ (check_and_update_ai_rate_limit 5 1000 (some ⟨1, 1030⟩)).state ≠ some ⟨2, 1060⟩ := by
  decide

/-- Claim C3 (amended): both limiters create `(count 1, expiry now+60)` and
admit when no row exists; on an unexpired row they admit exactly when
`count < limit`, incrementing the count as a side effect of admission - the
AWS limiter also refreshes the expiry to `now + 60`, while the AI limiter
leaves the stored expiry unchanged; denial leaves the row untouched; for a
limit of `n ≥ 1`, attempts `1..n` within one window are admitted and the
`(n+1)`-th is denied; an attempt issued at or after the expiry resets the
count to 1 and is admitted. -/
theorem rate_limiter_spec :
    (∀ limit now : Nat,
        check_and_update_aws_rate_limit limit now none = ⟨true, "", some ⟨1, now + 60⟩⟩
        ∧ check_and_update_ai_rate_limit limit now none = ⟨true, "", some ⟨1, now + 60⟩⟩)
    ∧ (∀ limit now c t : Nat, now < t →
        (check_and_update_aws_rate_limit limit now (some ⟨c, t⟩)).allowed = decide (c < limit)
        ∧ (check_and_update_ai_rate_limit limit now (some ⟨c, t⟩)).allowed = decide (c < limit))
    ∧ (∀ limit now c t : Nat, now < t → c < limit →
        (check_and_update_aws_rate_limit limit now (some ⟨c, t⟩)).state = some ⟨c + 1, now + 60⟩
        ∧ (check_and_update_ai_rate_limit limit now (some ⟨c, t⟩)).state = some ⟨c + 1, t⟩)
    ∧ (∀ limit now c t : Nat, now < t → limit ≤ c →
        check_and_update_aws_rate_limit limit now (some ⟨c, t⟩) =
          ⟨false, "AWS rate limit exceeded", some ⟨c, t⟩⟩
        ∧ check_and_update_ai_rate_limit limit now (some ⟨c, t⟩) =
          ⟨false, "AI rate limit exceeded", some ⟨c, t⟩⟩)
    ∧ (∀ limit now : Nat, 1 ≤ limit →
        (∀ k, k < limit →
          (check_and_update_aws_rate_limit limit now (iterAWS limit now k)).allowed = true
          ∧ (check_and_update_ai_rate_limit limit now (iterAI limit now k)).allowed = true)
        ∧ (check_and_update_aws_rate_limit limit now (iterAWS limit now limit)).allowed = false
        ∧ (check_and_update_ai_rate_limit limit now (iterAI limit now limit)).allowed = false)
    ∧ (∀ limit now c t : Nat, t ≤ now →
        check_and_update_aws_rate_limit limit now (some ⟨c, t⟩) = ⟨true, "", some ⟨1, now + 60⟩⟩
        ∧ check_and_update_ai_rate_limit limit now (some ⟨c, t⟩) = ⟨true, "", some ⟨1, now + 60⟩⟩) := by
  have hvis : ∀ now : Nat, ¬ (now + 60 ≤ now) := by
    intro now h
    omega
  refine ⟨?_, ?_, ?_, ?_, ?_, ?_⟩
  · intro limit now
    constructor <;> rfl
  · intro limit now c t ht
    by_cases hc : c < limit
    · constructor <;>
        simp [check_and_update_aws_rate_limit, check_and_update_ai_rate_limit, getItemTTL,
          Nat.not_le.mpr ht, Nat.not_le.mpr hc, hc]
    · have hge : limit ≤ c := Nat.not_lt.mp hc
      constructor <;>
        simp [check_and_update_aws_rate_limit, check_and_update_ai_rate_limit, getItemTTL,
          Nat.not_le.mpr ht, hge, hc]
  · intro limit now c t ht hc
    constructor <;>
      simp [check_and_update_aws_rate_limit, check_and_update_ai_rate_limit, getItemTTL,
        Nat.not_le.mpr ht, Nat.not_le.mpr hc]
  · intro limit now c t ht hc
    constructor <;>
      simp [check_and_update_aws_rate_limit, check_and_update_ai_rate_limit, getItemTTL,
        Nat.not_le.mpr ht, hc]
  · intro limit now hlim
    refine ⟨?_, ?_, ?_⟩
    · intro k hk
      rw [iterAWS_state limit now k (Nat.le_of_lt hk), iterAI_state limit now k (Nat.le_of_lt hk)]
      cases k with
      | zero =>
        constructor <;> rfl
      | succ m =>
        simp only [if_neg (Nat.succ_ne_zero m)]
        constructor <;>
          simp [check_and_update_aws_rate_limit, check_and_update_ai_rate_limit, getItemTTL,
            hvis now, Nat.not_le.mpr hk]
    · rw [iterAWS_state limit now limit (Nat.le_refl limit)]
      simp only [if_neg (Nat.pos_iff_ne_zero.mp hlim)]
      simp [check_and_update_aws_rate_limit, getItemTTL, hvis now]
    · rw [iterAI_state limit now limit (Nat.le_refl limit)]
      simp only [if_neg (Nat.pos_iff_ne_zero.mp hlim)]
      simp [check_and_update_ai_rate_limit, getItemTTL, hvis now]
  · intro limit now c t ht
    constructor <;>
      simp [check_and_update_aws_rate_limit, check_and_update_ai_rate_limit, getItemTTL, ht]

/-- Witness for `rate_limiter_spec`: with limit 2 at time 100, the second
attempt from the one-invocation state is admitted, and an attempt on an
expired row resets it. -/
theorem rate_limiter_spec_witness :
    ((check_and_update_aws_rate_limit 2 100 (some ⟨1, 160⟩)).allowed = decide ((1 : Nat) < 2)
      ∧ (check_and_update_ai_rate_limit 2 100 (some ⟨1, 160⟩)).allowed = decide ((1 : Nat) < 2))
    ∧ check_and_update_ai_rate_limit 2 500 (some ⟨2, 160⟩) = ⟨true, "", some ⟨1, 560⟩⟩ := by
  refine ⟨rate_limiter_spec.2.1 2 100 1 160 (by decide), ?_⟩
  exact (rate_limiter_spec.2.2.2.2.2 2 500 2 160 (by decide)).2

/-- Observable side-effect events of a run, in order of occurrence:
the delegated general (AWS) rate-limit admission, the AI rate-limit
admission inside the flag client, and a paid LLM HTTP request. -/
inductive Event where
  | awsRateCheck
  | aiRateCheck
  | llmCall
  deriving DecidableEq, Repr

/-- Result of `flag_llm.invoke_flag_llm`: the returned
`(flag decision, token usage)` pair, the `RL_AI` row after the call, and
the ordered side-effect events. -/
structure FlagRun where
  flag : Bool
  usage : TokenUsage
  aiState : Option RLRow
  trace : List Event
  deriving DecidableEq, Repr

/-- `flag_llm.invoke_flag_llm` (lines 29-145), as a function of the
account's AI limit, the current time, the `RL_AI` row and the provider
response the single request would receive.  The body first consults
`check_and_update_ai_rate_limit` (line 44); a denial returns
`(False, zero)` with no HTTP request issued.  On admission it sends one
request; non-200 status, malformed JSON, a missing `choices` field or a
failing content access all return `(False, zero)`.  With a completion in
hand, line 131 calls `store_ai_invocation` without the required
`session_id` keyword; the resulting `TypeError` is caught by the `except`
at line 143, which returns `(False, zero)` - so the comparison of the
normalized text with the flag token at line 141 is never returned. -/
def invoke_flag_llm (limit now : Nat) (table : Option RLRow) (r : ApiResponse) : FlagRun :=
  let rl := check_and_update_ai_rate_limit limit now table
  if rl.allowed = false then ⟨false, zeroUsage, rl.state, [Event.aiRateCheck]⟩
  else if r.status ≠ 200 then
    ⟨false, zeroUsage, rl.state, [Event.aiRateCheck, Event.llmCall]⟩
  else
    match r.body with
    | ApiBody.malformed => ⟨false, zeroUsage, rl.state, [Event.aiRateCheck, Event.llmCall]⟩
    | ApiBody.noChoices => ⟨false, zeroUsage, rl.state, [Event.aiRateCheck, Event.llmCall]⟩
    | ApiBody.badChoices => ⟨false, zeroUsage, rl.state, [Event.aiRateCheck, Event.llmCall]⟩
    | ApiBody.ok content p c =>
      if kwargsBindOk store_ai_invocation_params flag_store_call_kwargs then
        ⟨pyLower (pyStrip content) = "flag", ⟨p, c⟩, rl.state,
          [Event.aiRateCheck, Event.llmCall]⟩
      else ⟨false, zeroUsage, rl.state, [Event.aiRateCheck, Event.llmCall]⟩

/-- The kwargs at the flag client's store call do not bind against
`db.store_ai_invocation`: `session_id` is missing. -/
theorem flag_store_call_raises :
    kwargsBindOk store_ai_invocation_params flag_store_call_kwargs = false := by
  decide

/-- Claim C4 (code_bug evidence): with the rate limit admitted and a
well-formed 200 response whose completion is exactly `"flag"`, the claim
demands `true` plus the reported usage, but `invoke_flag_llm` returns
`(false, zero)`: the `store_ai_invocation` call preceding the return omits
the required `session_id` keyword, raises `TypeError`, and the blanket
`except` returns the fail-open pair. -/
theorem invoke_flag_llm_flag_completion_yields_false :
    invoke_flag_llm 5 1000 none ⟨200, ApiBody.ok "flag" 12 1⟩ =
      ⟨false, zeroUsage, some ⟨1, 1060⟩, [Event.aiRateCheck, Event.llmCall]⟩
    ∧ pyLower (pyStrip " FLAG ") = "flag"
    ∧ invoke_flag_llm 5 1000 none ⟨200, ApiBody.ok " FLAG " 12 1⟩ =
      ⟨false, zeroUsage, some ⟨1, 1060⟩, [Event.aiRateCheck, Event.llmCall]⟩ := by
  refine ⟨by decide, by decide, by decide⟩

/-- A Python exception kind, as far as the control flow distinguishes them:
`typeError` for call-arity / mixed-type-comparison failures, `valueError`
for failing tuple unpacking, `lambdaError` for `utils.LambdaError` raised
by the storage helpers. -/
inductive PyErr where
  | typeError
  | valueError
  | lambdaError
  deriving DecidableEq, Repr

/-- Outcome of the `authorize` call at lambda_function.py lines 235-259:
`ok` continues, `denied` is the branch returning 401, `failed` the branch
returning 500. -/
inductive AuthOutcome where
  | ok
  | denied
  | failed
  deriving DecidableEq, Repr

/-- The three fields `lambda_handler` extracts from the parsed event. -/
structure ParsedFields where
  conversation_id : Option String
  account_id : Option String
  session_id : Option String
  deriving DecidableEq, Repr

/-- Python truthiness of an optional string field (`None` and the empty
string are falsy), as used by `if not all([...])`. -/
def pyTruthy : Option String → Bool
  | none => false
  | some s => decide (s ≠ "")

/-- Python tuple unpacking `a, b = xs` of a list: binds iff the list has
exactly two elements, otherwise raises `ValueError`. -/
def unpack2 {α : Type} (xs : List α) : Option (α × α) :=
  match xs with
  | [a, b] => some (a, b)
  | _ => none

/-- `ev_calculator.calc_ev` is defined with three positional parameters
(ev_calculator.py line 16). -/
def calc_ev_param_count : Nat := 3

/-- `calculate_ev_for_conversation` calls `calc_ev` with four positional
arguments (lambda_function.py line 110). -/
def pipeline_calc_ev_arg_count : Nat := 4

/-- `flag_llm.invoke_flag_llm` is defined with three positional parameters
(flag_llm.py line 29). -/
def invoke_flag_llm_param_count : Nat := 3

/-- `calculate_ev_for_conversation` calls `invoke_flag_llm` with four
positional arguments (lambda_function.py line 116). -/
def pipeline_invoke_flag_llm_arg_count : Nat := 4

/-- Python positional call binding for a function without defaults or
varargs: the call binds iff the argument count equals the parameter count,
otherwise it raises `TypeError` before the callee body runs. -/
def positionalBindOk (params args : Nat) : Bool := decide (params = args)

/-- Oracle inputs of one handler invocation: what the external
collaborators (event parser, authorizer, delegated rate-limit lambda,
storage, LLM provider) would return, plus the ambient configuration. -/
structure World where
  parse : Option ParsedFields
  authBp : String
  auth : AuthOutcome
  awsCallOk : Bool
  awsLimit : Nat
  aiLimit : Nat
  now : Nat
  awsTable : Option RLRow
  aiTable : Option RLRow
  fetch : Option (List Email)
  evResp1 : ApiResponse
  evResp2 : ApiResponse
  flagResp : ApiResponse
  deriving DecidableEq, Repr

/-- The paid LLM requests `calc_ev` would issue, one per attempt made. -/
def calc_ev_llm_events (r1 : ApiResponse) : List Event :=
  match calc_ev_attempt r1 with
  | some _ => [Event.llmCall]
  | none => [Event.llmCall, Event.llmCall]

/-- `calculate_ev_for_conversation` (lambda_function.py lines 91-156),
returning the result of the call (normal return or uncaught exception)
together with the paid-LLM events it performs.

Line 104 unpacks the flat message list returned by `db.get_email_chain`
into `(chain, realtor_email)`: a `ValueError` unless the conversation has
exactly two messages (in which case `chain` is bound to the first message
dict - a non-empty dict, so the `if not chain` guard at line 105 never
fires).  Line 110 then calls `calc_ev` with four positional arguments
against its three parameters, a `TypeError` raised before any LLM request;
were that call to bind, line 116 calls `invoke_flag_llm` with four
arguments against three parameters, and line 117 compares its tuple result
with `< 0` - a `TypeError` in either case, so the update and store steps at
lines 122-152 are unreachable. -/
def calculate_ev_for_conversation (w : World) :
    Except PyErr (Int × TokenUsage) × List Event :=
  match w.fetch with
  | none => (Except.error PyErr.lambdaError, [])
  | some emails =>
    match unpack2 emails with
    | none => (Except.error PyErr.valueError, [])
    | some _ =>
      if positionalBindOk calc_ev_param_count pipeline_calc_ev_arg_count then
        let res := calc_ev w.evResp1 w.evResp2
        if res.1 < 0 then (Except.ok res, calc_ev_llm_events w.evResp1)
        else (Except.error PyErr.typeError, calc_ev_llm_events w.evResp1)
      else (Except.error PyErr.typeError, [])

/-- The structured body `lambda_handler` returns: the HTTP-style status
code, the body `status` field, and the body `ev_score` field when present. -/
structure LambdaResponse where
  statusCode : Nat
  status : String
  ev_score : Option Int
  deriving DecidableEq, Repr

/-- One full handler run: the response plus the observable side effects
(ordered events, final `RL_AWS` and `RL_AI` rows). -/
structure HandlerRun where
  resp : LambdaResponse
  trace : List Event
  awsState : Option RLRow
  aiState : Option RLRow
  deriving DecidableEq, Repr

/-- The handler from the rate-limit step on (lambda_function.py lines
262-311).  `check_aws_rate_limit` (lines 158-202) delegates to the
`rate-limit-aws` lambda; that service is not under `src/` and is modelled
from the spec (section 4.1 fixed-window admission) by
`check_and_update_aws_rate_limit`, which is also the literal embedding of
the direct-table variant in db.py.  `awsCallOk = false` models the
delegation itself failing (caught at lines 200-202, returning a denial
without any admission side effect).  A denial returns 429.  Otherwise
`calculate_ev_for_conversation` runs; an uncaught exception reaches the
`except` at line 300 (500, `error`), and a normal return builds the
response of lines 283-296 (`200`/`success` iff the score is
non-negative, with the score in the body). -/
def handler_after_auth (w : World) : HandlerRun :=
  if w.awsCallOk = false then ⟨⟨429, "error", none⟩, [], w.awsTable, w.aiTable⟩
  else
    let rl := check_and_update_aws_rate_limit w.awsLimit w.now w.awsTable
    if rl.allowed = false then
      ⟨⟨429, "error", none⟩, [Event.awsRateCheck], rl.state, w.aiTable⟩
    else
      match calculate_ev_for_conversation w with
      | (Except.error _, tr) =>
        ⟨⟨500, "error", none⟩, Event.awsRateCheck :: tr, rl.state, w.aiTable⟩
      | (Except.ok res, tr) =>
        if res.1 ≥ 0 then
          ⟨⟨200, "success", some res.1⟩, Event.awsRateCheck :: tr, rl.state, w.aiTable⟩
        else
          ⟨⟨500, "error", some res.1⟩, Event.awsRateCheck :: tr, rl.state, w.aiTable⟩

/-- `lambda_handler` (lambda_function.py lines 204-311): event parsing
(a parse failure raises and is caught by the outer `except`, 500), the
400 missing-fields check, the authorization step with its bypass token,
then `handler_after_auth`. -/
def lambda_handler_run (w : World) : HandlerRun :=
  match w.parse with
  | none => ⟨⟨500, "error", none⟩, [], w.awsTable, w.aiTable⟩
  | some f =>
    if pyTruthy f.conversation_id && pyTruthy f.account_id && pyTruthy f.session_id then
      if f.session_id.getD "" = w.authBp then handler_after_auth w
      else
        match w.auth with
        | AuthOutcome.ok => handler_after_auth w
        | AuthOutcome.denied => ⟨⟨401, "error", none⟩, [], w.awsTable, w.aiTable⟩
        | AuthOutcome.failed => ⟨⟨500, "error", none⟩, [], w.awsTable, w.aiTable⟩
    else ⟨⟨400, "error", none⟩, [], w.awsTable, w.aiTable⟩

/-- The module-level names defined (or imported) by utils.py, i.e. the
names `from utils import ...` can resolve. -/
def utils_module_names : List String :=
  ["json", "boto3", "Dict", "Any", "Union", "Optional", "ClientError", "logging",
   "logger", "AWS_REGION", "lambda_client", "dynamodb", "sessions_table",
   "LambdaError", "create_response", "invoke_lambda", "parse_event", "authorize",
   "db_select", "db_update", "select", "update"]

/-- The names lambda_function.py line 10 imports from utils:
`AuthorizationError` and `invoke` are not among `utils_module_names`, so
loading the handler module raises `ImportError`. -/
def lambda_function_utils_imports : List String :=
  ["parse_event", "authorize", "AuthorizationError", "invoke"]

/-- Whether the handler module loads: every imported name must resolve. -/
def lambda_module_import_ok : Bool :=
  lambda_function_utils_imports.all (fun n => utils_module_names.contains n)

/-- What an invocation of the deployed function produces: the handler's
structured response when the module loads, otherwise the platform-level
module-load fault (an unhandled error returned to the caller, with no
structured `status` body). -/
inductive EntryOutcome where
  | response (run : HandlerRun)
  | importFault
  deriving DecidableEq, Repr

/-- The deployed entry point. -/
def lambda_entry (w : World) : EntryOutcome :=
  if lambda_module_import_ok then EntryOutcome.response (lambda_handler_run w)
  else EntryOutcome.importFault

/-- Claim C5 (code_bug evidence): the claim's own scenario - a three-message
conversation, score completion `"42"`, flag completion `"ok"`, fresh rate
counters, bypass session - produces a 500 `error` response whose trace
contains only the rate-limit admission: no LLM call is made and no thread,
conversation or invocation write occurs (the unpacking of the flat
three-element message list into `(chain, realtor_email)` raises
`ValueError` before anything else). -/
theorem pipeline_end_to_end_run_returns_500 :
    lambda_handler_run ⟨some ⟨some "c1", some "a1", some "s1"⟩, "s1", AuthOutcome.ok, true,
        5, 5, 1000, none, none,
        some [⟨"b@y.com", "s", "hello", "1", "email"⟩, ⟨"a@x.com", "s", "hi", "2", "email"⟩,
          ⟨"b@y.com", "s", "tour?", "3", "email"⟩],
        ⟨200, ApiBody.ok "42" 10 1⟩, ⟨200, ApiBody.ok "42" 10 1⟩,
        ⟨200, ApiBody.ok "ok" 8 1⟩⟩ =
      ⟨⟨500, "error", none⟩, [Event.awsRateCheck], some ⟨1, 1060⟩, none⟩ := by
  decide

/-- Claim C6 (counterexample): a run in which the AI-invocation quota is
exhausted (limit 3, counter 3, unexpired) and the conversation exists
(two messages, so control reaches the scoring call) ends with a 500
response - not the claimed 429 - and the AI-quota admission check never
runs at all: the trace holds only the general (AWS) admission, because the
pipeline raises `TypeError` at the four-argument `calc_ev` call before
`invoke_flag_llm`, the only place the AI quota is consulted. -/
theorem pipeline_ai_quota_denial_not_surfaced :
    lambda_handler_run ⟨some ⟨some "c1", some "a1", some "s1"⟩, "s1", AuthOutcome.ok, true,
        5, 3, 1000, none, some ⟨3, 2000⟩,
        some [⟨"b@y.com", "s", "hello", "1", "email"⟩, ⟨"a@x.com", "s", "hi", "2", "email"⟩],
        ⟨200, ApiBody.ok "42" 10 1⟩, ⟨200, ApiBody.ok "42" 10 1⟩,
        ⟨200, ApiBody.ok "ok" 8 1⟩⟩ =
      ⟨⟨500, "error", none⟩, [Event.awsRateCheck], some ⟨1, 1060⟩, some ⟨3, 2000⟩⟩
    ∧ Event.aiRateCheck ∉ [Event.awsRateCheck]
    ∧ (500 : Nat) ≠ 429 := by
  refine ⟨by decide, by decide, by decide⟩

/-- Claim C6 (amended): the quota consulted before any paid LLM call is the
general (AWS) one - a run that reaches it and is denied returns 429 with a
trace containing no LLM call; the AI-invocation quota is consulted only
inside the flag client, where the admission check is the client's first
side effect and a denial returns `(false, zero)` with no LLM request
issued, rather than a RateLimited outcome. -/
theorem rate_limit_ordering_spec :
    (∀ (w : World) (f : ParsedFields), w.parse = some f →
        pyTruthy f.conversation_id = true → pyTruthy f.account_id = true →
        pyTruthy f.session_id = true →
        (f.session_id.getD "" = w.authBp ∨ w.auth = AuthOutcome.ok) →
        w.awsCallOk = true →
        (check_and_update_aws_rate_limit w.awsLimit w.now w.awsTable).allowed = false →
        lambda_handler_run w = ⟨⟨429, "error", none⟩, [Event.awsRateCheck],
          (check_and_update_aws_rate_limit w.awsLimit w.now w.awsTable).state, w.aiTable⟩)
    ∧ (∀ (limit now : Nat) (tbl : Option RLRow) (r : ApiResponse),
        (check_and_update_ai_rate_limit limit now tbl).allowed = false →
        invoke_flag_llm limit now tbl r =
          ⟨false, zeroUsage, (check_and_update_ai_rate_limit limit now tbl).state,
            [Event.aiRateCheck]⟩)
    ∧ (∀ (limit now : Nat) (tbl : Option RLRow) (r : ApiResponse),
        (invoke_flag_llm limit now tbl r).trace.head? = some Event.aiRateCheck) := by
  refine ⟨?_, ?_, ?_⟩
  · intro w f hp h1 h2 h3 hbyp hok hdeny
    have hafter : handler_after_auth w = ⟨⟨429, "error", none⟩, [Event.awsRateCheck],
        (check_and_update_aws_rate_limit w.awsLimit w.now w.awsTable).state, w.aiTable⟩ := by
      unfold handler_after_auth
      simp [hok, hdeny]
    unfold lambda_handler_run
    rw [hp]
    simp only [h1, h2, h3, Bool.and_self, if_true]
    rcases hbyp with hb | ha
    · rw [if_pos hb]
      exact hafter
    · by_cases hb : f.session_id.getD "" = w.authBp
      · rw [if_pos hb]
        exact hafter
      · rw [if_neg hb, ha]
        exact hafter
  · intro limit now tbl r hdeny
    unfold invoke_flag_llm
    simp [hdeny]
  · intro limit now tbl r
    unfold invoke_flag_llm
    by_cases h : (check_and_update_ai_rate_limit limit now tbl).allowed = false
    · simp [h]
    · rcases r with ⟨st, b⟩
      by_cases hs : st = 200 <;> cases b <;> simp [h, hs, flag_store_call_raises]

/-- Witness for `rate_limit_ordering_spec`: a denied general admission
(limit 1, counter already 1) returns 429 with no LLM call, and a denied AI
admission inside the flag client returns the fail-open pair. -/
theorem rate_limit_ordering_spec_witness :
    lambda_handler_run ⟨some ⟨some "c1", some "a1", some "s1"⟩, "s1", AuthOutcome.ok, true,
        1, 1, 1000, some ⟨1, 2000⟩, none, some [],
        ⟨200, ApiBody.ok "42" 10 1⟩, ⟨200, ApiBody.ok "42" 10 1⟩,
        ⟨200, ApiBody.ok "ok" 8 1⟩⟩ =
      ⟨⟨429, "error", none⟩, [Event.awsRateCheck],
        (check_and_update_aws_rate_limit 1 1000 (some ⟨1, 2000⟩)).state, none⟩
    ∧ invoke_flag_llm 1 1000 (some ⟨1, 2000⟩) ⟨200, ApiBody.ok "flag" 9 1⟩ =
      ⟨false, zeroUsage, (check_and_update_ai_rate_limit 1 1000 (some ⟨1, 2000⟩)).state,
        [Event.aiRateCheck]⟩ := by
  constructor
  · exact rate_limit_ordering_spec.1
      ⟨some ⟨some "c1", some "a1", some "s1"⟩, "s1", AuthOutcome.ok, true,
        1, 1, 1000, some ⟨1, 2000⟩, none, some [],
        ⟨200, ApiBody.ok "42" 10 1⟩, ⟨200, ApiBody.ok "42" 10 1⟩,
        ⟨200, ApiBody.ok "ok" 8 1⟩⟩
      ⟨some "c1", some "a1", some "s1"⟩ rfl (by decide) (by decide) (by decide)
      (Or.inl rfl) rfl (by decide)
  · exact rate_limit_ordering_spec.2.1 1 1000 (some ⟨1, 2000⟩)
      ⟨200, ApiBody.ok "flag" 9 1⟩ (by decide)

/-- Claim C7 (counterexample): a run whose conversation fetch comes back
empty ends 500 with no LLM call, but the general rate-limit admission has
already happened: a counter row `(1, now+60)` was created where none
existed - contradicting the claim that no counter is created or
incremented. -/
theorem pipeline_empty_chain_creates_rate_counter :
    lambda_handler_run ⟨some ⟨some "c1", some "a1", some "s1"⟩, "s1", AuthOutcome.ok, true,
        5, 5, 1000, none, none, some [],
        ⟨200, ApiBody.ok "42" 10 1⟩, ⟨200, ApiBody.ok "42" 10 1⟩,
        ⟨200, ApiBody.ok "ok" 8 1⟩⟩ =
      ⟨⟨500, "error", none⟩, [Event.awsRateCheck], some ⟨1, 1060⟩, none⟩
    ∧ some (⟨1, 1060⟩ : RLRow) ≠ none := by
  refine ⟨by decide, by decide⟩

/-- Claim C7 (amended): an empty or missing conversation fetch makes the
pipeline fail with a 500 `error` response (the flat-list unpacking raises
`ValueError`; the graceful not-found return is unreachable), with no LLM
call and no AI-quota side effect - but only after the general rate-limit
admission and its counter side effect have occurred. -/
theorem pipeline_empty_chain_behavior :
    ∀ (w : World) (f : ParsedFields), w.parse = some f →
      pyTruthy f.conversation_id = true → pyTruthy f.account_id = true →
      pyTruthy f.session_id = true →
      (f.session_id.getD "" = w.authBp ∨ w.auth = AuthOutcome.ok) →
      w.awsCallOk = true →
      (check_and_update_aws_rate_limit w.awsLimit w.now w.awsTable).allowed = true →
      (w.fetch = some [] ∨ w.fetch = none) →
      lambda_handler_run w = ⟨⟨500, "error", none⟩, [Event.awsRateCheck],
        (check_and_update_aws_rate_limit w.awsLimit w.now w.awsTable).state, w.aiTable⟩ := by
  intro w f hp h1 h2 h3 hbyp hok hallow hfetch
  have hcalc : ∃ e, calculate_ev_for_conversation w = (Except.error e, []) := by
    rcases hfetch with hf | hf <;> unfold calculate_ev_for_conversation <;> rw [hf]
    · exact ⟨PyErr.valueError, rfl⟩
    · exact ⟨PyErr.lambdaError, rfl⟩
  rcases hcalc with ⟨e, hcalc⟩
  have hafter : handler_after_auth w = ⟨⟨500, "error", none⟩, [Event.awsRateCheck],
      (check_and_update_aws_rate_limit w.awsLimit w.now w.awsTable).state, w.aiTable⟩ := by
    unfold handler_after_auth
    simp [hok, hallow, hcalc]
  unfold lambda_handler_run
  rw [hp]
  simp only [h1, h2, h3, Bool.and_self, if_true]
  rcases hbyp with hb | ha
  · rw [if_pos hb]
    exact hafter
  · by_cases hb : f.session_id.getD "" = w.authBp
    · rw [if_pos hb]
      exact hafter
    · rw [if_neg hb, ha]
      exact hafter

/-- Witness for `pipeline_empty_chain_behavior`: a fresh account, bypass
session, empty fetch. -/
theorem pipeline_empty_chain_behavior_witness :
    lambda_handler_run ⟨some ⟨some "c2", some "a2", some "s2"⟩, "s2", AuthOutcome.ok, true,
        5, 5, 2000, none, none, some [],
        ⟨200, ApiBody.ok "42" 10 1⟩, ⟨200, ApiBody.ok "42" 10 1⟩,
        ⟨200, ApiBody.ok "ok" 8 1⟩⟩ =
      ⟨⟨500, "error", none⟩, [Event.awsRateCheck],
        (check_and_update_aws_rate_limit 5 2000 none).state, none⟩ :=
  pipeline_empty_chain_behavior
    ⟨some ⟨some "c2", some "a2", some "s2"⟩, "s2", AuthOutcome.ok, true,
      5, 5, 2000, none, none, some [],
      ⟨200, ApiBody.ok "42" 10 1⟩, ⟨200, ApiBody.ok "42" 10 1⟩,
      ⟨200, ApiBody.ok "ok" 8 1⟩⟩
    ⟨some "c2", some "a2", some "s2"⟩ rfl (by decide) (by decide) (by decide)
    (Or.inl rfl) rfl (by decide) (Or.inl rfl)

/-- Claim C8 (code_bug evidence): the handler module does not load -
lambda_function.py line 10 imports `AuthorizationError` and `invoke` from
utils, neither of which utils.py defines - so every invocation of the
deployed function produces the platform's import fault instead of a
structured JSON response with a `status` field. -/
theorem lambda_entry_import_fault :
    lambda_module_import_ok = false
    ∧ lambda_entry ⟨some ⟨some "c", some "a", some "s"⟩, "s", AuthOutcome.ok, true,
        5, 5, 0, none, none, some [],
        ⟨200, ApiBody.malformed⟩, ⟨200, ApiBody.malformed⟩, ⟨200, ApiBody.malformed⟩⟩ =
      EntryOutcome.importFault := by
  refine ⟨by decide, by decide⟩

end GenerateEv
